import Mathlib

/-!
Shallow embedding of `src/stubs/scripta/logger.h`, a no-op stand-in for the
scripta logging library used when building CuraEngine in Docker.

Modelling conventions:
* Every C++ function in the header runs in an ambient world state of an
  arbitrary type `σ` (covering any I/O, heap, globals, and the caller's own
  argument objects).  A function that could throw is embedded as
  `Except String (result × σ)`.  The bodies in the header are empty, so each
  embedded function returns `Except.ok` with the world unchanged.
* A `const char*` label is a non-owned pointer into caller storage; it is
  modelled by its address (`CStr`).  A `std::string` label is a rich string
  value (`StdString`).
* A variadic parameter pack `Args&&...` is modelled by a single value of an
  arbitrary type `A` (e.g. a tuple of the forwarded arguments); a payload
  `const T&` by a value of an arbitrary type `T`.
-/

namespace scripta

/-- The `SectionType` enumeration of `logger.h` (lines 12–18). -/
inductive SectionType where
  | NA
  | INFILL
  | SUPPORT
  | WALLS
  | SKIN
deriving DecidableEq, Repr

/-- A `const char*` label: a non-owned pointer into caller-supplied storage,
modelled by its address.  Equality of `CStr` values is pointer identity. -/
structure CStr where
  addr : Nat
deriving DecidableEq, Repr

/-- A `std::string` label (a rich string object), modelled by its contents. -/
structure StdString where
  data : String
deriving DecidableEq, Repr

/-- Overload `template<typename T, typename... Args>
void log(const char*, const T&, Args&&...)` (logger.h lines 22–25).
The body is empty, so the call returns `void` and leaves the world intact. -/
def log_cstr_payload {T A σ : Type} (label : CStr) (payload : T) (args : A)
    (s : σ) : Except String (Unit × σ) :=
  Except.ok ((), s)

/-- Overload `template<typename... Args> void log(const char*, Args&&...)`
(logger.h lines 27–30).  Empty body. -/
def log_cstr {A σ : Type} (label : CStr) (args : A) (s : σ) :
    Except String (Unit × σ) :=
  Except.ok ((), s)

/-- Overload `template<typename T, typename... Args>
void log(const std::string&, const T&, Args&&...)` (logger.h lines 33–36).
Empty body. -/
def log_string_payload {T A σ : Type} (label : StdString) (payload : T)
    (args : A) (s : σ) : Except String (Unit × σ) :=
  Except.ok ((), s)

/-- Overload `template<typename... Args> void log(const std::string&, Args&&...)`
(logger.h lines 38–41).  Empty body. -/
def log_string {A σ : Type} (label : StdString) (args : A) (s : σ) :
    Except String (Unit × σ) :=
  Except.ok ((), s)

/-- `template<typename... Args> void setAll(Args&&...)` (logger.h lines 43–46).
Empty body. -/
def setAll {A σ : Type} (args : A) (s : σ) : Except String (Unit × σ) :=
  Except.ok ((), s)

/-- `template<typename T> struct CellVDI` (logger.h lines 50–57): a label
pointer and a payload/accessor stored by value. -/
structure CellVDI (T : Type) where
  name : CStr
  accessor : T

/-- `template<typename T> struct PointVDI` (logger.h lines 63–70): same two
fields as `CellVDI`. -/
structure PointVDI (T : Type) where
  name : CStr
  accessor : T

/-- The constructor `CellVDI(const char* n, T a) : name(n), accessor(a) {}`
run in the world `σ`: it only initialises the two fields from its arguments
(`T` is inferred from the payload argument, mirroring the CTAD deduction guide
of logger.h lines 59–61) and cannot throw. -/
def CellVDI.construct {T σ : Type} (n : CStr) (a : T) (s : σ) :
    Except String (CellVDI T × σ) :=
  Except.ok (⟨n, a⟩, s)

/-- The constructor `PointVDI(const char* n, T a) : name(n), accessor(a) {}`
run in the world `σ` (deduction guide: logger.h lines 72–74). -/
def PointVDI.construct {T σ : Type} (n : CStr) (a : T) (s : σ) :
    Except String (PointVDI T × σ) :=
  Except.ok (⟨n, a⟩, s)

/-- Field-preserving map from `PointVDI T` to `CellVDI T`. -/
def pointToCell {T : Type} (p : PointVDI T) : CellVDI T :=
  ⟨p.name, p.accessor⟩

/-- Field-preserving map from `CellVDI T` to `PointVDI T`. -/
def cellToPoint {T : Type} (c : CellVDI T) : PointVDI T :=
  ⟨c.name, c.accessor⟩

/-- One call into the shim, as issued by some execution context: one of the
four `log` overloads or `setAll`, with its label, optional payload and
variadic arguments. -/
inductive Op (T A : Type) where
  | logCP (label : CStr) (payload : T) (args : A)
  | logC (label : CStr) (args : A)
  | logSP (label : StdString) (payload : T) (args : A)
  | logS (label : StdString) (args : A)
  | setAllOp (args : A)

/-- Effect of one shim call on the shared world: run the embedded function and
keep the resulting world (an exception would leave the world as it was). -/
def applyOp {T A σ : Type} (op : Op T A) (s : σ) : σ :=
  match op with
  | .logCP l p a =>
      match log_cstr_payload l p a s with
      | .ok (_, s') => s'
      | .error _ => s
  | .logC l a =>
      match log_cstr l a s with
      | .ok (_, s') => s'
      | .error _ => s
  | .logSP l p a =>
      match log_string_payload l p a s with
      | .ok (_, s') => s'
      | .error _ => s
  | .logS l a =>
      match log_string l a s with
      | .ok (_, s') => s'
      | .error _ => s
  | .setAllOp a =>
      match setAll a s with
      | .ok (_, s') => s'
      | .error _ => s

/-- Run a sequence of shim calls (any interleaving of the calls issued by any
number of execution contexts) against a shared world. -/
def runOps {T A σ : Type} (ops : List (Op T A)) (s : σ) : σ :=
  ops.foldl (fun w op => applyOp op w) s

/-- The world holding every object the caller passes to a shim call: the two
label forms, the payload, a section tag, and the remaining variadic
arguments. -/
structure CallerWorld (T A : Type) where
  labelPtr : CStr
  labelStr : StdString
  payload : T
  tag : SectionType
  extras : A

theorem applyOp_eq {T A σ : Type} (op : Op T A) (s : σ) : applyOp op s = s := by
  cases op <;> rfl

theorem runOps_eq {T A σ : Type} (ops : List (Op T A)) (s : σ) :
    runOps ops s = s := by
  induction ops generalizing s with
  | nil => rfl
  | cons op rest ih =>
      show runOps rest (applyOp op s) = s
      rw [applyOp_eq, ih]

end scripta

namespace scripta

/-- C1: every supported call shape of `log` — label-only or label plus payload
plus further variadic arguments, with the label either a `const char*` or a
`std::string` — returns `void` (unit) and leaves the entire observable world
unchanged: no I/O, no formatting, no side effect of any kind. -/
theorem C1_log_all_overloads_noop {T A σ : Type} (lc : CStr) (ls : StdString)
    (p : T) (args : A) (s : σ) :
    log_cstr_payload lc p args s = Except.ok ((), s) ∧
    log_cstr lc args s = Except.ok ((), s) ∧
    log_string_payload ls p args s = Except.ok ((), s) ∧
    log_string ls args s = Except.ok ((), s) :=
  ⟨rfl, rfl, rfl, rfl⟩

/-- C2: for every combination of arguments, no call to any `log` overload or
to `setAll` can fail at runtime: each embedded function is total and always
returns a normal (`Except.ok`) result — no error branch is reachable. -/
theorem C2_log_setAll_never_fail {T A σ : Type} (lc : CStr) (ls : StdString)
    (p : T) (args : A) (s : σ) :
    (∃ r, log_cstr_payload lc p args s = Except.ok r) ∧
    (∃ r, log_cstr lc args s = Except.ok r) ∧
    (∃ r, log_string_payload ls p args s = Except.ok r) ∧
    (∃ r, log_string ls args s = Except.ok r) ∧
    (∃ r, setAll args s = Except.ok r) :=
  ⟨⟨((), s), rfl⟩, ⟨((), s), rfl⟩, ⟨((), s), rfl⟩, ⟨((), s), rfl⟩,
    ⟨((), s), rfl⟩⟩

/-- C3: calling `setAll` with any number of arguments of arbitrary types
(the pack is a value of an arbitrary type `A`, with `A := Unit` for the empty
call) returns `void` and is a no-op: the world is unchanged. -/
theorem C3_setAll_noop {A σ : Type} (args : A) (s : σ) :
    setAll args s = Except.ok ((), s) ∧ setAll () s = Except.ok ((), s) :=
  ⟨rfl, rfl⟩

/-- C4: for every payload type `T` (the quantification covers function types,
i.e. function pointers and lambdas, as well as plain pointer models) and every
label, constructing a `CellVDI T` or `PointVDI T` succeeds with `T` inferred
from the payload argument; the result stores exactly the given label and
payload and the world is untouched, so the payload is never evaluated,
invoked, or dereferenced during construction. -/
theorem C4_vdi_construction_total_and_inert {T σ : Type} (n : CStr) (a : T)
    (s : σ) :
    CellVDI.construct n a s = Except.ok (⟨n, a⟩, s) ∧
    PointVDI.construct n a s = Except.ok (⟨n, a⟩, s) ∧
    (CellVDI.mk n a).name = n ∧ (CellVDI.mk n a).accessor = a ∧
    (PointVDI.mk n a).name = n ∧ (PointVDI.mk n a).accessor = a :=
  ⟨rfl, rfl, rfl, rfl, rfl, rfl⟩

/-- C5: calling `log` twice in sequence with identical arguments (threading
the world from the first call into the second) has exactly the same observable
effect as calling it once, and as calling it zero times: the world after the
second call equals the world after the first, which equals the initial world.
Stated for all four overloads. -/
theorem C5_log_idempotent {T A σ : Type} (lc : CStr) (ls : StdString) (p : T)
    (args : A) (s : σ) :
    (log_cstr_payload lc p args s).bind
        (fun r => log_cstr_payload lc p args r.2) =
      log_cstr_payload lc p args s ∧
    (log_cstr lc args s).bind (fun r => log_cstr lc args r.2) =
      log_cstr lc args s ∧
    (log_string_payload ls p args s).bind
        (fun r => log_string_payload ls p args r.2) =
      log_string_payload ls p args s ∧
    (log_string ls args s).bind (fun r => log_string ls args r.2) =
      log_string ls args s ∧
    log_cstr_payload lc p args s = Except.ok ((), s) :=
  ⟨rfl, rfl, rfl, rfl, rfl⟩

/-- C6: the shim never inspects a `SectionType` tag: two `log` calls that
differ only in the `SectionType` value passed (whether the tag sits among the
variadic arguments or in the payload position) produce identical results and
identical worlds. -/
theorem C6_sectiontype_noninterference {T E σ : Type} (lc : CStr)
    (ls : StdString) (p : T) (t₁ t₂ : SectionType) (extra : E) (s : σ) :
    log_cstr_payload lc p (t₁, extra) s = log_cstr_payload lc p (t₂, extra) s ∧
    log_cstr lc (t₁, extra) s = log_cstr lc (t₂, extra) s ∧
    log_string_payload ls p (t₁, extra) s =
      log_string_payload ls p (t₂, extra) s ∧
    log_string ls (t₁, extra) s = log_string ls (t₂, extra) s ∧
    log_cstr_payload lc t₁ extra s = log_cstr_payload lc t₂ extra s ∧
    log_string_payload ls t₁ extra s = log_string_payload ls t₂ extra s :=
  ⟨rfl, rfl, rfl, rfl, rfl, rfl⟩

/-- C7: `PointVDI T` is structurally identical to `CellVDI T`: the
field-preserving maps between them are mutually inverse bijections, they carry
the constructor of one type to the constructor of the other, and the effectful
constructors behave identically up to this renaming. -/
theorem C7_pointvdi_cellvdi_identical {T σ : Type} (n : CStr) (a : T)
    (p : PointVDI T) (c : CellVDI T) (s : σ) :
    cellToPoint (pointToCell p) = p ∧
    pointToCell (cellToPoint c) = c ∧
    pointToCell (PointVDI.mk n a) = CellVDI.mk n a ∧
    (pointToCell p).name = p.name ∧
    (pointToCell p).accessor = p.accessor ∧
    PointVDI.construct n a s =
      (CellVDI.construct n a s).map (fun r => (cellToPoint r.1, r.2)) :=
  ⟨rfl, rfl, rfl, rfl, rfl, rfl⟩

/-- C8: any interleaving of any number of shim calls (issued by any number of
execution contexts against a shared world) leaves the shared world exactly as
it started, and any two interleavings end in the same world: the shim observes
nothing, mutates nothing, and so is safe under arbitrary concurrency. -/
theorem C8_concurrent_calls_safe {T A σ : Type} (ops ops₁ ops₂ : List (Op T A))
    (s : σ) :
    runOps ops s = s ∧ runOps ops₁ s = runOps ops₂ s := by
  refine ⟨runOps_eq ops s, ?_⟩
  rw [runOps_eq, runOps_eq]

/-- C9: a `CellVDI`/`PointVDI` built from a label pointer `n` and payload `a`
has its `name` field equal to the very caller-supplied pointer `n` (pointer
identity, no copy) and its `accessor` field equal to the payload `a` stored by
value; and no operation of the shim ever mutates these fields afterwards — a
world consisting of the constructed value passes through every shim call
unchanged, including when the value itself is the payload being logged. -/
theorem C9_vdi_fields_invariant {T A σ : Type} (n : CStr) (a : T) (l : CStr)
    (p : T) (args : A) (s : σ) :
    ((CellVDI.mk n a).name = n ∧ (CellVDI.mk n a).accessor = a) ∧
    ((PointVDI.mk n a).name = n ∧ (PointVDI.mk n a).accessor = a) ∧
    (∀ c : CellVDI T, log_cstr_payload l p args c = Except.ok ((), c)) ∧
    (∀ q : PointVDI T, log_cstr_payload l p args q = Except.ok ((), q)) ∧
    (∀ c : CellVDI T, log_cstr_payload l c args s = Except.ok ((), s)) ∧
    (∀ c : CellVDI T, setAll args c = Except.ok ((), c)) ∧
    (∀ q : PointVDI T, setAll args q = Except.ok ((), q)) :=
  ⟨⟨rfl, rfl⟩, ⟨rfl, rfl⟩, fun _ => rfl, fun _ => rfl, fun _ => rfl,
    fun _ => rfl, fun _ => rfl⟩

/-- C10: no shim entry point modifies any argument the caller supplies: when
the world is exactly the caller's argument objects (labels, payload, tag,
extra arguments), every `log` overload, `setAll`, and both VDI constructors
return that world unchanged, so every argument is identical after the call. -/
theorem C10_arguments_unmodified {T A : Type} (w : CallerWorld T A) :
    log_cstr_payload w.labelPtr w.payload (w.tag, w.extras) w =
      Except.ok ((), w) ∧
    log_cstr w.labelPtr (w.tag, w.extras) w = Except.ok ((), w) ∧
    log_string_payload w.labelStr w.payload (w.tag, w.extras) w =
      Except.ok ((), w) ∧
    log_string w.labelStr (w.tag, w.extras) w = Except.ok ((), w) ∧
    setAll (w.tag, w.extras) w = Except.ok ((), w) ∧
    CellVDI.construct w.labelPtr w.payload w =
      Except.ok (⟨w.labelPtr, w.payload⟩, w) ∧
    PointVDI.construct w.labelPtr w.payload w =
      Except.ok (⟨w.labelPtr, w.payload⟩, w) :=
  ⟨rfl, rfl, rfl, rfl, rfl, rfl, rfl⟩

end scripta
